import Mathlib

/-!
Shallow embedding of the go-balancer repository's discovery registry,
round-robin selection strategy and proxy dispatch path, together with
theorems settling the specification claims about them.

Source files embedded:
* `balancer/internal/strategy/strategy.go` — `Strategy`, `NewStrategy`, `RoundRobin.Next`
* `balancer/internal/handlers/handlers.go` — `BalanceHandler`, `selectBackend`,
  `nextBackend`, `createProxy` (the per-request rewrite + error handler)
* `balancer/cmd/balancer` discovery — `Backend`, `BackendList.Replace`,
  `BackendList.GetAll`, `reconcile`
* the balancer `config` package — `Config`, `Config.validate`

Go machine integers are modelled as `Int`; Go's `%` on `int` is truncated
remainder, i.e. `Int.tmod`.  A Go runtime panic (index out of range,
integer divide by zero) is modelled as `Option.none`.
-/

namespace Balancer

/-- Go `discovery.Backend`: one addressable instance of the downstream service. -/
structure Backend where
  Address : String
  PodName : String
deriving DecidableEq, Repr

/-- Go `BackendList.Replace`: whole-set replacement of the stored backends.
The mutex-guarded slice is modelled by explicit state passing of the list. -/
def BackendList.Replace (_bl : List Backend) (backends : List Backend) : List Backend :=
  backends

/-- Go `BackendList.GetAll`: returns a defensive copy of the stored backends;
on immutable lists the copy is the list itself. -/
def BackendList.GetAll (bl : List Backend) : List Backend :=
  bl

/-- One member address of a `corev1.Endpoints` subset: `address.IP` and
`address.TargetRef.Name` are the two fields `reconcile` reads. -/
structure EndpointAddress where
  IP : String
  TargetRefName : String
deriving DecidableEq, Repr

/-- One subset of a `corev1.Endpoints` object (`endpoints.Subsets` element). -/
structure EndpointSubset where
  Addresses : List EndpointAddress
deriving DecidableEq, Repr

/-- The membership event payload consumed by `reconcile`: a named
`corev1.Endpoints` resource with its nested subsets. -/
structure Endpoints where
  Name : String
  Subsets : List EndpointSubset
deriving DecidableEq, Repr

/-- The flattening loops of `reconcile`: one `Backend` per member address,
in subset order then address order. -/
def flattenEndpoints (endpoints : Endpoints) : List Backend :=
  endpoints.Subsets.flatMap fun subnet =>
    subnet.Addresses.map fun address =>
      { Address := address.IP, PodName := address.TargetRefName }

/-- Go `reconcile` from the discovery package: drop the event unless its resource
name matches the configured service name, otherwise flatten the event's
subsets and replace the whole stored backend list. -/
def reconcile (endpoints : Endpoints) (backendList : List Backend)
    (serviceName : String) : List Backend :=
  if endpoints.Name ≠ serviceName then
    backendList
  else
    BackendList.Replace backendList (flattenEndpoints endpoints)

/-- Go `strategy.Strategy`: the interface's closed set of implementations;
`RoundRobin` is the only one. -/
inductive Strategy where
  | RoundRobin
deriving DecidableEq, Repr

/-- Go `strategy.NewStrategy`: the `switch` maps the name `"RoundRobin"` to the
round-robin strategy and every other name to the same default. -/
def NewStrategy (method : String) : Strategy :=
  if method = "RoundRobin" then Strategy.RoundRobin else Strategy.RoundRobin

/-- Go `RoundRobin.Next`: `backends[requests % len(backends)]`.  Go's `%` on
signed `int` is truncated remainder (`Int.tmod`).  `none` models the runtime
panic: integer divide by zero when the slice is empty, index out of range
when the remainder is negative. -/
def RoundRobin.Next (backends : List Backend) (requests : Int) : Option Backend :=
  if _h : backends.length = 0 then
    none
  else if h2 : 0 ≤ Int.tmod requests (backends.length : Int) ∧
      (Int.tmod requests (backends.length : Int)).toNat < backends.length then
    some (backends.get ⟨(Int.tmod requests (backends.length : Int)).toNat, h2.2⟩)
  else
    none

/-- Dynamic dispatch of `Strategy.Next` over the closed implementation set. -/
def Strategy.Next (s : Strategy) (backends : List Backend) (requests : Int) :
    Option Backend :=
  match s with
  | Strategy.RoundRobin => RoundRobin.Next backends requests

/-- The balancer `config.Config`. -/
structure Config where
  BackendName : String
  BackendPort : Int
  LoadbalancerPort : Int
  LoadbalancerMethod : String
deriving DecidableEq, Repr

/-- Go constant `config.StrategyRoundRobin`. -/
def StrategyRoundRobin : String := "RoundRobin"

/-- Go `Config.validate`: the loop accepts the configured method only if it
equals one of the known strategy names (just `"RoundRobin"`); both
`LoadFromFile` and `LoadFromEnv` return this error to `main`, which exits. -/
def Config.validate (c : Config) : Except String Unit :=
  if [StrategyRoundRobin].any (fun s => c.LoadbalancerMethod == s) then
    Except.ok ()
  else
    Except.error "invalid strategy, set one of [RoundRobin]"

/-- Go `handlers.BalanceHandler`: the shared state of the dispatch path.
`Backends` holds the `BackendList` contents, `Requests` is the shared counter
(a signed Go `int`), `Strategy` the startup-constructed strategy. -/
structure BalanceHandler where
  BackendName : String
  BackendPort : Int
  LoadbalancerPort : Int
  LoadbalancerMethod : String
  Backends : List Backend
  Requests : Int
  Strategy : Strategy
deriving DecidableEq, Repr

/-- The host string `fmt.Sprintf("%s:%d", backend.Address, bh.BackendPort)` used by both
`nextBackend` and the proxy rewrite. -/
def backendHost (backend : Backend) (port : Int) : String :=
  backend.Address ++ ":" ++ toString port

/-- Go `BalanceHandler.selectBackend`: `bh.Strategy.Next(bh.Backends.GetAll(), requests)`. -/
def BalanceHandler.selectBackend (bh : BalanceHandler) (requests : Int) :
    Option Backend :=
  Strategy.Next bh.Strategy (BackendList.GetAll bh.Backends) requests

/-- The JSON body written by the `/next-backend` diagnostic endpoint. -/
structure NextResponse where
  NextHost : String
deriving DecidableEq, Repr

/-- Go `BalanceHandler.nextBackend`: read the counter under the read lock,
select with the current counter value, report the selected host.  Returns
the response together with the post-call handler state; `none` models the
panic propagating out of the unguarded `selectBackend` call. -/
def BalanceHandler.nextBackend (bh : BalanceHandler) :
    Option NextResponse × BalanceHandler :=
  match bh.selectBackend bh.Requests with
  | some backend => (some { NextHost := backendHost backend bh.BackendPort }, bh)
  | none => (none, bh)

/-- Result of the network forward performed by the reverse proxy transport. -/
inductive ForwardResult where
  | success
  | failure
deriving DecidableEq, Repr

/-- Observable outcome of one trip through the proxy path:
the request was forwarded to a host, the `ErrorHandler` wrote 502 Bad
Gateway, or a runtime panic escaped the rewrite (no HTTP response). -/
inductive DispatchOutcome where
  | forwarded (host : String)
  | badGateway
  | panicked
deriving DecidableEq, Repr

/-- The proxy path built by `createProxy`, one inbound request: the rewrite
increments the shared counter, reads the post-increment value, selects a
backend and rewrites the target host; the `ErrorHandler` turns a forwarding
failure into 502.  The counter increment happens first and is never rolled
back in any branch. -/
def BalanceHandler.dispatch (bh : BalanceHandler) (fwd : ForwardResult) :
    DispatchOutcome × BalanceHandler :=
  let bh2 : BalanceHandler := { bh with Requests := bh.Requests + 1 }
  match bh2.selectBackend bh2.Requests with
  | none => (DispatchOutcome.panicked, bh2)
  | some backend =>
    match fwd with
    | ForwardResult.success =>
        (DispatchOutcome.forwarded (backendHost backend bh2.BackendPort), bh2)
    | ForwardResult.failure => (DispatchOutcome.badGateway, bh2)

/-! ### Concrete sample data used by witnesses and counterexamples -/

def sampleBackendA : Backend := { Address := "10.0.0.1", PodName := "pod-a" }

def sampleBackendB : Backend := { Address := "10.0.0.2", PodName := "pod-b" }

def sampleBackendC : Backend := { Address := "10.0.0.3", PodName := "pod-c" }

/-- A freshly constructed handler over backends [A, B, C], counter at 0. -/
def handlerABC : BalanceHandler :=
  { BackendName := "backend-svc"
    BackendPort := 8080
    LoadbalancerPort := 9090
    LoadbalancerMethod := "RoundRobin"
    Backends := [sampleBackendA, sampleBackendB, sampleBackendC]
    Requests := 0
    Strategy := NewStrategy "RoundRobin" }

/-- A handler over backends [A, B], counter at 0. -/
def handlerAB : BalanceHandler :=
  { handlerABC with Backends := [sampleBackendA, sampleBackendB] }

/-- A handler whose backend set snapshot is empty. -/
def emptyHandler : BalanceHandler :=
  { handlerABC with Backends := [] }

/-! ### Helper lemmas shared by several claims -/

/-- On a non-negative (`Nat`) counter, `RoundRobin.Next` is plain `Nat`
modulo indexing. -/
theorem RoundRobin.next_ofNat (backends : List Backend) (c : Nat)
    (h : backends.length ≠ 0) :
    RoundRobin.Next backends (c : Int) =
      some (backends.get ⟨c % backends.length, Nat.mod_lt c (Nat.pos_of_ne_zero h)⟩) := by
  have htm : Int.tmod (c : Int) (backends.length : Int) =
      ((c % backends.length : Nat) : Int) :=
    (Int.ofNat_tmod c backends.length).symm
  have hcond : 0 ≤ Int.tmod (c : Int) (backends.length : Int) ∧
      (Int.tmod (c : Int) (backends.length : Int)).toNat < backends.length := by
    rw [htm]
    refine ⟨Int.natCast_nonneg _, ?_⟩
    simpa using Nat.mod_lt c (Nat.pos_of_ne_zero h)
  have hval : ((c : Int).tmod (backends.length : Int)).toNat = c % backends.length := by
    rw [htm]; rfl
  unfold RoundRobin.Next
  rw [dif_neg h, dif_pos hcond]
  exact congrArg some (congrArg backends.get (Fin.ext hval))

/-- The counter advance of one dispatch: every branch of the proxy path
leaves the counter at its post-increment value. -/
theorem dispatch_Requests (bh : BalanceHandler) (fwd : ForwardResult) :
    (bh.dispatch fwd).2.Requests = bh.Requests + 1 := by
  simp only [BalanceHandler.dispatch]
  cases fwd <;> split <;> rfl

/-- With a non-empty list and a non-negative counter, `RoundRobin.Next`
always succeeds. -/
theorem RoundRobin.next_isSome_of_nonneg (backends : List Backend) (c : Int)
    (h : backends.length ≠ 0) (hc : 0 ≤ c) :
    ∃ b, RoundRobin.Next backends c = some b := by
  obtain ⟨n, rfl⟩ := Int.eq_ofNat_of_zero_le hc
  exact ⟨_, RoundRobin.next_ofNat backends n h⟩

/-- Updating only the `Requests` field does not change what `selectBackend`
computes (it reads only the strategy and the backend list). -/
theorem selectBackend_requests_update (bh : BalanceHandler) (v r : Int) :
    ({ bh with Requests := v } : BalanceHandler).selectBackend r =
      bh.selectBackend r := rfl

/-- The proxy path panics exactly when the unguarded selection call panics
on the post-increment counter value. -/
theorem dispatch_panicked_iff (bh : BalanceHandler) (fwd : ForwardResult) :
    (bh.dispatch fwd).1 = DispatchOutcome.panicked ↔
      bh.selectBackend (bh.Requests + 1) = none := by
  simp only [BalanceHandler.dispatch]
  split
  · next heq => simp_all [BalanceHandler.selectBackend]
  · next backend heq => cases fwd <;> simp_all [BalanceHandler.selectBackend]

/-- When selection succeeds, a forwarding failure is reported as 502. -/
theorem dispatch_failure_badGateway (bh : BalanceHandler) (b : Backend)
    (hsel : bh.selectBackend (bh.Requests + 1) = some b) :
    (bh.dispatch ForwardResult.failure).1 = DispatchOutcome.badGateway := by
  simp only [BalanceHandler.dispatch]
  split
  · next heq => simp_all [BalanceHandler.selectBackend]
  · rfl

/-- Totality characterization of the unguarded modulo indexing: it panics
exactly on the empty list (divide by zero) or a negative truncated
remainder (index out of range). -/
theorem RoundRobin.next_eq_none_iff (backends : List Backend) (c : Int) :
    RoundRobin.Next backends c = none ↔
      backends = [] ∨ Int.tmod c (backends.length : Int) < 0 := by
  unfold RoundRobin.Next
  by_cases h : backends.length = 0
  · simp [h, List.length_eq_zero.mp h]
  · rw [dif_neg h]
    by_cases h2 : 0 ≤ Int.tmod c (backends.length : Int) ∧
        (Int.tmod c (backends.length : Int)).toNat < backends.length
    · rw [dif_pos h2]
      have hne : backends ≠ [] := fun he => h (by simp [he])
      simp [hne, not_lt.mpr h2.1]
    · rw [dif_neg h2]
      have hpos : (0 : Int) < (backends.length : Int) := by
        exact_mod_cast Nat.pos_of_ne_zero h
      have hlt := Int.tmod_lt_of_pos c hpos
      constructor
      · intro _
        right
        by_contra hneg
        push_neg at hneg
        exact h2 ⟨hneg, by omega⟩
      · intro _
        rfl

/-! ### Claim theorems -/

/-- C1 (code-bug demonstration): with an empty Backend Set snapshot the
dispatch path does not fail with a service-unavailable outcome — it still
invokes the strategy, whose empty-slice modulo indexing hits the runtime
panic branch, and the request dies with a panic (no forwarding happens, but
also no 503). -/
theorem c1_empty_set_panics (bh : BalanceHandler) (fwd : ForwardResult)
    (h : bh.Backends = []) :
    (bh.dispatch fwd).1 = DispatchOutcome.panicked ∧
    RoundRobin.Next (BackendList.GetAll bh.Backends) (bh.Requests + 1) = none := by
  have hnext : RoundRobin.Next (BackendList.GetAll bh.Backends) (bh.Requests + 1) = none := by
    rw [h]; rfl
  refine ⟨(dispatch_panicked_iff bh fwd).mpr ?_, hnext⟩
  cases hst : bh.Strategy
  show Strategy.Next bh.Strategy (BackendList.GetAll bh.Backends) (bh.Requests + 1) = none
  rw [hst]
  exact hnext

/-- Witness for C1 at the empty-set handler. -/
theorem c1_witness :
    emptyHandler.Backends = [] ∧
    ((emptyHandler.dispatch ForwardResult.success).1 = DispatchOutcome.panicked ∧
      RoundRobin.Next (BackendList.GetAll emptyHandler.Backends)
        (emptyHandler.Requests + 1) = none) :=
  ⟨rfl, c1_empty_set_panics emptyHandler ForwardResult.success rfl⟩

/-- C4 (code-bug demonstration) at the failing input: handler over [A, B]
with the counter at 0 — the next-backend diagnostic reports backend A (it
selects with the current counter value), while the next forwarded request
selects backend B (it selects with the post-increment value), so the
diagnostic does not predict the next selection. -/
theorem c4_diagnostic_mismatch :
    (handlerAB.nextBackend).1 = some { NextHost := backendHost sampleBackendA 8080 } ∧
    (handlerAB.dispatch ForwardResult.success).1 =
      DispatchOutcome.forwarded (backendHost sampleBackendB 8080) ∧
    backendHost sampleBackendA 8080 ≠ backendHost sampleBackendB 8080 :=
  ⟨rfl, rfl, by decide⟩

/-- C2: for every non-empty backends list of size N and every counter value
c, round-robin `Next(backends, c)` returns `backends[c mod N]`, and
`Next(backends, c)` equals `Next(backends, c + N)` (periodicity). -/
theorem c2_next_mod_indexing (backends : List Backend) (c : Nat)
    (h : backends ≠ []) :
    RoundRobin.Next backends (c : Int) =
      some (backends.get ⟨c % backends.length, Nat.mod_lt c (List.length_pos.mpr h)⟩) ∧
    RoundRobin.Next backends (c : Int) =
      RoundRobin.Next backends (((c + backends.length : Nat) : Int)) := by
  have hne : backends.length ≠ 0 := fun h0 => h (List.length_eq_zero.mp h0)
  refine ⟨RoundRobin.next_ofNat backends c hne, ?_⟩
  rw [RoundRobin.next_ofNat backends c hne,
    RoundRobin.next_ofNat backends (c + backends.length) hne]
  exact congrArg some (congrArg backends.get
    (Fin.ext (Nat.add_mod_right c backends.length).symm))

/-- Witness for C2 at the backend list [A, B, C] and counter value 4. -/
theorem c2_witness :
    ([sampleBackendA, sampleBackendB, sampleBackendC] ≠ ([] : List Backend)) ∧
    (RoundRobin.Next [sampleBackendA, sampleBackendB, sampleBackendC] ((4 : Nat) : Int) =
        some ([sampleBackendA, sampleBackendB, sampleBackendC].get
          ⟨4 % [sampleBackendA, sampleBackendB, sampleBackendC].length, by decide⟩) ∧
      RoundRobin.Next [sampleBackendA, sampleBackendB, sampleBackendC] ((4 : Nat) : Int) =
        RoundRobin.Next [sampleBackendA, sampleBackendB, sampleBackendC]
          (((4 + [sampleBackendA, sampleBackendB, sampleBackendC].length : Nat) : Int))) :=
  ⟨List.cons_ne_nil _ _,
    c2_next_mod_indexing [sampleBackendA, sampleBackendB, sampleBackendC] 4
      (List.cons_ne_nil _ _)⟩

/-- C3 counterexample: with backends [A, B, C] and the counter starting at 0,
the first forwarded request selects backend B (the post-increment counter is
1 and 1 mod 3 = 1), not backend A as the claim states. -/
theorem c3_counterexample :
    (handlerABC.dispatch ForwardResult.success).1 =
      DispatchOutcome.forwarded (backendHost sampleBackendB 8080) ∧
    backendHost sampleBackendB 8080 ≠ backendHost sampleBackendA 8080 :=
  ⟨rfl, by decide⟩

/-- C3 amended: with backend set [A, B, C] and the Request Counter starting
at 0, three consecutive forwarded requests select B, C, A in that order, and
a fourth forwarded request selects B again (each request first increments
the counter and then selects with the post-increment value). -/
theorem c3_rotation_from_zero :
    (handlerABC.dispatch ForwardResult.success).1 =
      DispatchOutcome.forwarded (backendHost sampleBackendB 8080) ∧
    ((handlerABC.dispatch ForwardResult.success).2.dispatch ForwardResult.success).1 =
      DispatchOutcome.forwarded (backendHost sampleBackendC 8080) ∧
    (((handlerABC.dispatch ForwardResult.success).2.dispatch
        ForwardResult.success).2.dispatch ForwardResult.success).1 =
      DispatchOutcome.forwarded (backendHost sampleBackendA 8080) ∧
    ((((handlerABC.dispatch ForwardResult.success).2.dispatch
        ForwardResult.success).2.dispatch ForwardResult.success).2.dispatch
        ForwardResult.success).1 =
      DispatchOutcome.forwarded (backendHost sampleBackendB 8080) :=
  ⟨rfl, rfl, rfl, rfl⟩

/-- C5: the next-backend diagnostic endpoint never modifies the handler
state (in particular the shared Request Counter), so two consecutive
diagnostic calls with no forwarded request in between return the same
predicted backend. -/
theorem c5_next_backend_pure (bh : BalanceHandler) :
    (bh.nextBackend).2 = bh ∧
    ((bh.nextBackend).2.nextBackend).1 = (bh.nextBackend).1 := by
  have hstate : (bh.nextBackend).2 = bh := by
    unfold BalanceHandler.nextBackend
    split <;> rfl
  exact ⟨hstate, by rw [hstate]⟩

/-- C6: reconciliation is idempotent — applying `reconcile` twice with the
same membership event leaves the visible snapshot (`GetAll`) equal to the
snapshot after applying it once, for every prior registry state. -/
theorem c6_reconcile_idempotent (endpoints : Endpoints)
    (backendList : List Backend) (serviceName : String) :
    BackendList.GetAll
        (reconcile endpoints (reconcile endpoints backendList serviceName) serviceName) =
      BackendList.GetAll (reconcile endpoints backendList serviceName) := by
  unfold reconcile
  by_cases h : endpoints.Name = serviceName
  · simp [h, BackendList.Replace]
  · simp [h]

/-- C7: a membership event whose resource name differs from the configured
target service name leaves the stored Backend Set completely unchanged. -/
theorem c7_unrelated_event_unchanged (endpoints : Endpoints)
    (backendList : List Backend) (serviceName : String)
    (h : endpoints.Name ≠ serviceName) :
    reconcile endpoints backendList serviceName = backendList := by
  unfold reconcile
  rw [if_pos h]

/-- A membership event for an unrelated service. -/
def sampleOtherEndpoints : Endpoints :=
  { Name := "other-svc"
    Subsets := [{ Addresses := [{ IP := "10.1.1.1", TargetRefName := "pod-x" }] }] }

/-- Witness for C7 at a concrete unrelated event and prior state [A]. -/
theorem c7_witness :
    sampleOtherEndpoints.Name ≠ "backend-svc" ∧
    reconcile sampleOtherEndpoints [sampleBackendA] "backend-svc" = [sampleBackendA] :=
  ⟨by decide, c7_unrelated_event_unchanged _ _ _ (by decide)⟩

/-- C8: when selection succeeds and the forward fails, the caller gets the
gateway-error outcome; the counter increment performed for the failed
request persists (no rollback), so the next forwarded request uses the next
counter value. -/
theorem c8_gateway_error_counter_persists (bh : BalanceHandler)
    (fwd2 : ForwardResult) (h : bh.Backends ≠ []) (h0 : 0 ≤ bh.Requests) :
    (bh.dispatch ForwardResult.failure).1 = DispatchOutcome.badGateway ∧
    (bh.dispatch ForwardResult.failure).2.Requests = bh.Requests + 1 ∧
    ((bh.dispatch ForwardResult.failure).2.dispatch fwd2).2.Requests =
      bh.Requests + 2 := by
  have hlen : (BackendList.GetAll bh.Backends).length ≠ 0 := fun h0' =>
    h (List.length_eq_zero.mp h0')
  obtain ⟨b, hb⟩ := RoundRobin.next_isSome_of_nonneg (BackendList.GetAll bh.Backends)
    (bh.Requests + 1) hlen (by omega)
  have hsel : bh.selectBackend (bh.Requests + 1) = some b := by
    cases hst : bh.Strategy
    show Strategy.Next bh.Strategy (BackendList.GetAll bh.Backends) (bh.Requests + 1) = some b
    rw [hst]
    exact hb
  refine ⟨dispatch_failure_badGateway bh b hsel,
    dispatch_Requests bh ForwardResult.failure, ?_⟩
  rw [dispatch_Requests, dispatch_Requests]
  omega

/-- Witness for C8 at the [A, B, C] handler with counter value 0. -/
theorem c8_witness :
    handlerABC.Backends ≠ [] ∧ 0 ≤ handlerABC.Requests ∧
    ((handlerABC.dispatch ForwardResult.failure).1 = DispatchOutcome.badGateway ∧
      (handlerABC.dispatch ForwardResult.failure).2.Requests =
        handlerABC.Requests + 1 ∧
      ((handlerABC.dispatch ForwardResult.failure).2.dispatch
          ForwardResult.success).2.Requests = handlerABC.Requests + 2) :=
  ⟨by decide, by decide,
    c8_gateway_error_counter_persists handlerABC ForwardResult.success
      (by decide) (by decide)⟩

/-- C9 counterexample: with the unknown strategy name "LeastConnections" the
strategy constructor does fall back to round-robin, but `Config.validate` —
run by both config loaders before the handler is ever built, with `main`
exiting on the error — rejects the name, so an unknown configured strategy
name does prevent the balancer from serving traffic. -/
theorem c9_counterexample :
    Config.validate
        { BackendName := "backend-svc", BackendPort := 8080,
          LoadbalancerPort := 9090, LoadbalancerMethod := "LeastConnections" } =
      Except.error "invalid strategy, set one of [RoundRobin]" ∧
    NewStrategy "LeastConnections" = Strategy.RoundRobin :=
  ⟨rfl, rfl⟩

/-- C9 amended: the function `NewStrategy` maps every strategy name, known or unknown, to
the default round-robin strategy; but startup config validation accepts only
the exact name "RoundRobin", so an unknown configured strategy name fails
config loading (and hence startup) before the strategy is ever constructed. -/
theorem c9_strategy_fallback_validate_rejects :
    (∀ method : String, NewStrategy method = Strategy.RoundRobin) ∧
    (∀ cfg : Config, cfg.validate = Except.ok () ↔
      cfg.LoadbalancerMethod = StrategyRoundRobin) := by
  constructor
  · intro method
    unfold NewStrategy
    split <;> rfl
  · intro cfg
    unfold Config.validate
    by_cases h : cfg.LoadbalancerMethod = StrategyRoundRobin
    · simp [h, StrategyRoundRobin]
    · simp [h, StrategyRoundRobin]

/-- C10 counterexample: a negative counter does not always reach the error
branch — with three backends and counter -3 the truncated remainder is 0 and
`RoundRobin.Next` returns backend A without panicking. -/
theorem c10_counterexample :
    RoundRobin.Next [sampleBackendA, sampleBackendB, sampleBackendC] (-3) =
      some sampleBackendA := rfl

/-- C10 amended: the unguarded modulo indexing of `RoundRobin.Next` panics
exactly when the backends list is empty (modulo by zero) or the truncated
remainder of the signed counter is negative (out-of-range index); both the
proxy path and the next-backend diagnostic call it unguarded, the former
with the post-increment counter and the latter with the current counter, and
propagate the panic. -/
theorem c10_unguarded_modulo_indexing :
    (∀ (backends : List Backend) (c : Int),
        RoundRobin.Next backends c = none ↔
          backends = [] ∨ Int.tmod c (backends.length : Int) < 0) ∧
    (∀ bh : BalanceHandler,
        (bh.nextBackend).1 = none ↔
          RoundRobin.Next (BackendList.GetAll bh.Backends) bh.Requests = none) ∧
    (∀ (bh : BalanceHandler) (fwd : ForwardResult),
        (bh.dispatch fwd).1 = DispatchOutcome.panicked ↔
          RoundRobin.Next (BackendList.GetAll bh.Backends) (bh.Requests + 1) = none) := by
  refine ⟨RoundRobin.next_eq_none_iff, ?_, ?_⟩
  · intro bh
    cases hst : bh.Strategy
    unfold BalanceHandler.nextBackend
    split
    · next backend heq => simp_all [BalanceHandler.selectBackend, Strategy.Next]
    · next heq => simp_all [BalanceHandler.selectBackend, Strategy.Next]
  · intro bh fwd
    rw [dispatch_panicked_iff]
    cases hst : bh.Strategy
    show Strategy.Next bh.Strategy (BackendList.GetAll bh.Backends) (bh.Requests + 1) = none ↔ _
    rw [hst]
    exact Iff.rfl

end Balancer
